import Mathlib

/-!
Shallow embedding of the dialect-abstraction layer of
`src/server/services/store/sqlstore/sqlstore.go` (focalboard SQLStore),
together with theorems settling the specification claims about it.

Go standard-library helpers used by that file (`strings.Fields`,
`strconv.Atoi`, `strings.Contains`, `time.Time.AddDate`,
`time.Time.Format(time.RFC3339)`, `net/url`) are modelled below; the
clock read by `time.Now()` is passed as an explicit argument, and the
URL parser is passed as an explicit function argument.
-/

set_option autoImplicit false

namespace SqlStore

/-- Modelled from the spec: the three recognized engine-kind constants of the
`model` package (`model.PostgresDBType`, `model.MysqlDBType`,
`model.SqliteDBType`), whose defining file is not included under `src/`.
They are three pairwise-distinct string tags, with their upstream literal
values. -/
def PostgresDBType : String := "postgres"

/-- Engine tag for MySQL (see `PostgresDBType`). -/
def MysqlDBType : String := "mysql"

/-- Engine tag for SQLite (see `PostgresDBType`). -/
def SqliteDBType : String := "sqlite3"

/-- The data fields of the Go struct `SQLStore` (sqlstore.go:25-36) that are
plain data; the handle, logger, mutex-factory and plugin-API fields carry no
dialect-relevant state and are omitted. -/
structure SQLStore where
  dbType : String
  connectionString : String := ""
  isPlugin : Bool := false
  isSingleUser : Bool := false
  isBinaryParam : Bool := false
deriving DecidableEq, Repr

/-- `escapeField` (sqlstore.go:118-126): wraps an identifier in the engine's
quoting convention. -/
def escapeField (s : SQLStore) (fieldName : String) : String :=
  if s.dbType = MysqlDBType then
    "`" ++ fieldName ++ "`"
  else if s.dbType = PostgresDBType ∨ s.dbType = SqliteDBType then
    "\"" ++ fieldName ++ "\""
  else
    fieldName

/-- `parameterPlaceholder` (sqlstore.go:174-182): the placeholder token for a
parameter at the given ordinal position (`fmt.Sprintf("$%v", count)` on a Go
`int` prints the decimal representation, i.e. `toString count`). -/
def parameterPlaceholder (s : SQLStore) (count : Int) : String :=
  if s.dbType = PostgresDBType ∨ s.dbType = SqliteDBType then
    "$" ++ toString count
  else if s.dbType = MysqlDBType then
    "?"
  else
    ""

/-- `concatenationSelector` (sqlstore.go:147-158): the engine's
string-aggregation syntax. -/
def concatenationSelector (s : SQLStore) (field delimiter : String) : String :=
  if s.dbType = SqliteDBType then
    "group_concat(" ++ field ++ ")"
  else if s.dbType = PostgresDBType then
    "string_agg(" ++ field ++ ", '" ++ delimiter ++ "')"
  else if s.dbType = MysqlDBType then
    "GROUP_CONCAT(" ++ field ++ " SEPARATOR '" ++ delimiter ++ "')"
  else
    ""

/-- `elementInColumn` (sqlstore.go:160-168): a SQL predicate testing whether a
bound parameter occurs as a substring of a column. -/
def elementInColumn (s : SQLStore) (parameterCount : Int) (column : String) : String :=
  if s.dbType = SqliteDBType ∨ s.dbType = MysqlDBType then
    "instr(" ++ column ++ ", " ++ parameterPlaceholder s parameterCount ++ ") > 0"
  else if s.dbType = PostgresDBType then
    "position(" ++ parameterPlaceholder s parameterCount ++ " in " ++ column ++ ") > 0"
  else
    ""

/-- The Latin-1 fragment of Go's `unicode.IsSpace`, which is what
`strings.Fields` splits on; every input appearing in this file is ASCII. -/
def isGoSpace (c : Char) : Bool :=
  c = ' ' ∨ c = '\t' ∨ c = '\n' ∨ c = '\x0b' ∨ c = '\x0c' ∨ c = '\r' ∨
    c = '\x85' ∨ c = '\xa0'

/-- Accumulator-style splitter behind `goFields`: `cur` holds the characters
of the token being read, in reverse. -/
def splitFieldsAux : List Char → List Char → List String
  | [], cur => if cur.isEmpty then [] else [String.mk cur.reverse]
  | c :: cs, cur =>
    if isGoSpace c then
      if cur.isEmpty then splitFieldsAux cs []
      else String.mk cur.reverse :: splitFieldsAux cs []
    else
      splitFieldsAux cs (c :: cur)

/-- Model of Go `strings.Fields`: the maximal runs of non-whitespace
characters, in order. -/
def goFields (s : String) : List String :=
  splitFieldsAux s.data []

/-- Whether every character of the list is a decimal digit. -/
def allDigits : List Char → Bool
  | [] => true
  | c :: cs => c.isDigit && allDigits cs

/-- Decimal value of a digit list, most significant first. -/
def natOfDigits : List Char → Nat → Nat
  | [], acc => acc
  | c :: cs, acc => natOfDigits cs (acc * 10 + (c.toNat - 48))

/-- Model of Go `strconv.Atoi` (= `strconv.ParseInt(s, 10, 0)` on a 64-bit
platform): an optional sign followed by at least one decimal digit, with the
64-bit range check (out-of-range input yields `ErrRange`, hence a non-nil
error). `none` is any non-nil error. -/
def goAtoi (s : String) : Option Int :=
  let core : List Char → Option Int := fun cs =>
    match cs with
    | [] => none
    | '+' :: ds =>
      if ds ≠ [] ∧ allDigits ds then some (Int.ofNat (natOfDigits ds 0)) else none
    | '-' :: ds =>
      if ds ≠ [] ∧ allDigits ds then some (-Int.ofNat (natOfDigits ds 0)) else none
    | ds =>
      if allDigits ds then some (Int.ofNat (natOfDigits ds 0)) else none
  match core s.data with
  | none => none
  | some i =>
    if -9223372036854775808 ≤ i ∧ i ≤ 9223372036854775807 then some i else none

/-- Whether `pre` is an initial segment of the second list. -/
def startsWithChars : List Char → List Char → Bool
  | [], _ => true
  | _ :: _, [] => false
  | a :: as, b :: bs => a = b && startsWithChars as bs

/-- Whether `needle` occurs contiguously somewhere in the second list. -/
def hasSubChars : List Char → List Char → Bool
  | needle, [] => startsWithChars needle []
  | needle, b :: bs => startsWithChars needle (b :: bs) || hasSubChars needle bs

/-- Model of Go `strings.Contains s sub`. -/
def strContains (s sub : String) : Bool :=
  hasSubChars sub.data s.data

/-- Model of a Go `time.Time` at the granularity the dialect layer uses: the
calendar fields touched by `AddDate` plus the clock-and-zone remainder that
`AddDate` leaves unchanged. -/
structure GoTime where
  year : Int
  month : Int
  day : Int
  hour : Int
  minute : Int
  second : Int
  zone : String := "Z"
deriving DecidableEq, Repr

/-- Model of Go `time.Time.AddDate years months days` at the field level
(calendar normalization is irrelevant to every statement below, which only
compares `AddDate` results built from the same base time). -/
def GoTime.addDate (t : GoTime) (years months days : Int) : GoTime :=
  { t with
    year := t.year + years
    month := t.month + months
    day := t.day + days }

/-- Zero-pad a field value to two digits, as RFC 3339 rendering does. -/
def pad2 (n : Int) : String :=
  if 0 ≤ n ∧ n < 10 then "0" ++ toString n else toString n

/-- Zero-pad a year value to four digits, as RFC 3339 rendering does. -/
def pad4 (n : Int) : String :=
  if 0 ≤ n ∧ n < 10 then "000" ++ toString n
  else if 0 ≤ n ∧ n < 100 then "00" ++ toString n
  else if 0 ≤ n ∧ n < 1000 then "0" ++ toString n
  else toString n

/-- Model of Go `t.Format(time.RFC3339)`: the layout
`2006-01-02T15:04:05Z07:00` over the fields of `GoTime`. -/
def formatRFC3339 (t : GoTime) : String :=
  pad4 t.year ++ "-" ++ pad2 t.month ++ "-" ++ pad2 t.day ++ "T" ++
    pad2 t.hour ++ ":" ++ pad2 t.minute ++ ":" ++ pad2 t.second ++ t.zone

/-- Observable outcome of a call to `durationSelector`: the index-out-of-range
panic of `strings.Fields(interval)[0]` on an empty field list, the `os.Exit(2)`
on a magnitude that `strconv.Atoi` rejects, or a returned timestamp string. -/
inductive DurationResult where
  | panicIndexOutOfRange : DurationResult
  | exit (code : Nat) : DurationResult
  | timestamp (value : String) : DurationResult
deriving DecidableEq, Repr

/-- `durationSelector` (sqlstore.go:128-145). `now` is the value that each
`time.Now()` call in the body reads (the Go body may observe slightly
different clock values at its several call sites; a single `now` models one
evaluation instant). -/
def durationSelector (s : SQLStore) (now : GoTime) (interval : String) : DurationResult :=
  match goFields interval with
  | [] => DurationResult.panicIndexOutOfRange
  | intervalMagnitudeString :: _ =>
    match goAtoi intervalMagnitudeString with
    | none => DurationResult.exit 2
    | some intervalMagnitude =>
      if strContains interval "day" then
        DurationResult.timestamp
          (formatRFC3339 (GoTime.addDate now 0 0 (-1 * intervalMagnitude)))
      else if strContains interval "month" then
        DurationResult.timestamp
          (formatRFC3339 (GoTime.addDate now 0 (-1 * intervalMagnitude) 0))
      else if strContains interval "year" then
        DurationResult.timestamp
          (formatRFC3339 (GoTime.addDate now (-1 * intervalMagnitude) 0 0))
      else
        DurationResult.timestamp (formatRFC3339 now)

/-- Model of the parsed-URL view that `computeBinaryParam` consumes: only the
decoded query pairs matter (`url.Query()` with `.Get`). -/
structure GoURL where
  query : List (String × String)
deriving DecidableEq, Repr

/-- Model of Go `url.Values.Get`: first value bound to the key, or the empty
string when the key is absent. -/
def GoURL.queryGet (u : GoURL) (key : String) : String :=
  match u.query.find? (fun p => p.1 == key) with
  | some p => p.2
  | none => ""

/-- `computeBinaryParam` (sqlstore.go:80-90). `net/url.Parse` is Go standard
library, so it is passed in as an explicit parser argument `parseURL`;
the function errors exactly when the parser errors. -/
def computeBinaryParam (parseURL : String → Except String GoURL) (s : SQLStore) :
    Except String Bool :=
  if s.dbType ≠ PostgresDBType then
    Except.ok false
  else
    match parseURL s.connectionString with
    | Except.error e => Except.error e
    | Except.ok u => Except.ok (u.queryGet "binary_parameters" == "yes")

/-! ### Helper lemmas shared by the claim theorems -/

/-- Two strings whose character lists start with different characters differ. -/
theorem data_head_ne {a b : String} {c d : Char} {ta tb : List Char}
    (ha : a.data = c :: ta) (hb : b.data = d :: tb) (hcd : c ≠ d) : a ≠ b := by
  intro h
  subst h
  rw [ha] at hb
  injection hb with h1 _
  exact hcd h1

/-- A string whose character list is a cons is not the empty string. -/
theorem data_cons_ne_empty {a : String} {c : Char} {ta : List Char}
    (ha : a.data = c :: ta) : a ≠ "" := by
  intro h
  subst h
  exact List.noConfusion ha

/-- Character list of a one-character string prepended to another string. -/
theorem one_char_append_data (a t : String) (c : Char) (ha : a.data = [c]) :
    (a ++ t).data = c :: t.data := by
  rw [String.data_append, ha]
  rfl

/-- Character list of a one-character string wrapped around by two appends. -/
theorem one_char_append_append_data (a t u : String) (c : Char) (ha : a.data = [c]) :
    ((a ++ t) ++ u).data = c :: (t.data ++ u.data) := by
  rw [String.data_append, String.data_append, ha]
  rfl

/-- `escapeField` on the MySQL engine tag. -/
theorem escapeField_mysql (s : SQLStore) (name : String) (h : s.dbType = MysqlDBType) :
    escapeField s name = "`" ++ name ++ "`" := by
  simp [escapeField, h]

/-- `escapeField` on the Postgres or SQLite engine tags. -/
theorem escapeField_pgLite (s : SQLStore) (name : String)
    (h : s.dbType = PostgresDBType ∨ s.dbType = SqliteDBType) :
    escapeField s name = "\"" ++ name ++ "\"" := by
  rcases h with h | h <;>
    simp [escapeField, h, PostgresDBType, SqliteDBType, MysqlDBType]

/-- `escapeField` on an unrecognized engine tag. -/
theorem escapeField_other (s : SQLStore) (name : String)
    (h1 : s.dbType ≠ MysqlDBType) (h2 : s.dbType ≠ PostgresDBType)
    (h3 : s.dbType ≠ SqliteDBType) :
    escapeField s name = name := by
  simp [escapeField, h1, h2, h3]

/-- `parameterPlaceholder` on the Postgres or SQLite engine tags. -/
theorem parameterPlaceholder_pgLite (s : SQLStore) (count : Int)
    (h : s.dbType = PostgresDBType ∨ s.dbType = SqliteDBType) :
    parameterPlaceholder s count = "$" ++ toString count := by
  rcases h with h | h <;> simp [parameterPlaceholder, h]

/-- `parameterPlaceholder` on the MySQL engine tag. -/
theorem parameterPlaceholder_mysql (s : SQLStore) (count : Int)
    (h : s.dbType = MysqlDBType) :
    parameterPlaceholder s count = "?" := by
  simp [parameterPlaceholder, h, PostgresDBType, SqliteDBType, MysqlDBType]

/-- `parameterPlaceholder` on an unrecognized engine tag. -/
theorem parameterPlaceholder_other (s : SQLStore) (count : Int)
    (h1 : s.dbType ≠ PostgresDBType) (h2 : s.dbType ≠ SqliteDBType)
    (h3 : s.dbType ≠ MysqlDBType) :
    parameterPlaceholder s count = "" := by
  simp [parameterPlaceholder, h1, h2, h3]

/-! ### Claim theorems -/

/-- Claim C10: `escapeField` (IdentifierQuote) wraps the name in backticks for
MySQL, in double quotes for Postgres and SQLite, and returns it unchanged for
any other engine kind. -/
theorem escapeField_spec (s : SQLStore) (name : String) :
    (s.dbType = MysqlDBType → escapeField s name = "`" ++ name ++ "`")
    ∧ ((s.dbType = PostgresDBType ∨ s.dbType = SqliteDBType) →
        escapeField s name = "\"" ++ name ++ "\"")
    ∧ (s.dbType ≠ MysqlDBType → s.dbType ≠ PostgresDBType → s.dbType ≠ SqliteDBType →
        escapeField s name = name) :=
  ⟨fun h => escapeField_mysql s name h,
   fun h => escapeField_pgLite s name h,
   fun h1 h2 h3 => escapeField_other s name h1 h2 h3⟩

/-- Witness for C10: the three branches at concrete inputs. -/
theorem escapeField_spec_witness :
    escapeField { dbType := "mysql" } "name" = "`" ++ "name" ++ "`"
    ∧ escapeField { dbType := "postgres" } "name" = "\"" ++ "name" ++ "\""
    ∧ escapeField { dbType := "oracle" } "name" = "name" :=
  ⟨(escapeField_spec { dbType := "mysql" } "name").1 rfl,
   (escapeField_spec { dbType := "postgres" } "name").2.1 (Or.inl rfl),
   (escapeField_spec { dbType := "oracle" } "name").2.2 (by decide) (by decide) (by decide)⟩

/-- Claim C9: `parameterPlaceholder` (PlaceholderFor) returns `$<n>` for
Postgres and SQLite, the fixed `?` for MySQL regardless of the ordinal, and
the empty string for any unrecognized engine kind. -/
theorem parameterPlaceholder_spec (s : SQLStore) (count : Int) :
    ((s.dbType = PostgresDBType ∨ s.dbType = SqliteDBType) →
        parameterPlaceholder s count = "$" ++ toString count)
    ∧ (s.dbType = MysqlDBType → parameterPlaceholder s count = "?")
    ∧ (s.dbType ≠ PostgresDBType → s.dbType ≠ SqliteDBType → s.dbType ≠ MysqlDBType →
        parameterPlaceholder s count = "") :=
  ⟨fun h => parameterPlaceholder_pgLite s count h,
   fun h => parameterPlaceholder_mysql s count h,
   fun h1 h2 h3 => parameterPlaceholder_other s count h1 h2 h3⟩

/-- Witness for C9: the three branches at concrete inputs, and the rendered
`$<n>` token at ordinal 7. -/
theorem parameterPlaceholder_spec_witness :
    parameterPlaceholder { dbType := "postgres" } 7 = "$" ++ toString (7 : Int)
    ∧ parameterPlaceholder { dbType := "postgres" } 7 = "$7"
    ∧ parameterPlaceholder { dbType := "mysql" } 7 = "?"
    ∧ parameterPlaceholder { dbType := "oracle" } 7 = "" :=
  ⟨(parameterPlaceholder_spec { dbType := "postgres" } 7).1 (Or.inl rfl),
   ((parameterPlaceholder_spec { dbType := "postgres" } 7).1 (Or.inl rfl)).trans (by decide),
   (parameterPlaceholder_spec { dbType := "mysql" } 7).2.1 rfl,
   (parameterPlaceholder_spec { dbType := "oracle" } 7).2.2 (by decide) (by decide) (by decide)⟩

/-- Claim C8: `concatenationSelector` (ConcatAggregate) returns
`group_concat(f)` for SQLite (ignoring the delimiter), `string_agg(f, 'd')`
for Postgres, `GROUP_CONCAT(f SEPARATOR 'd')` for MySQL, and the empty string
for any unrecognized engine kind. -/
theorem concatenationSelector_spec (s : SQLStore) (field delimiter : String) :
    (s.dbType = SqliteDBType →
        concatenationSelector s field delimiter = "group_concat(" ++ field ++ ")")
    ∧ (s.dbType = PostgresDBType →
        concatenationSelector s field delimiter
          = "string_agg(" ++ field ++ ", '" ++ delimiter ++ "')")
    ∧ (s.dbType = MysqlDBType →
        concatenationSelector s field delimiter
          = "GROUP_CONCAT(" ++ field ++ " SEPARATOR '" ++ delimiter ++ "')")
    ∧ (s.dbType ≠ SqliteDBType → s.dbType ≠ PostgresDBType → s.dbType ≠ MysqlDBType →
        concatenationSelector s field delimiter = "") := by
  refine ⟨fun h => ?_, fun h => ?_, fun h => ?_, fun h1 h2 h3 => ?_⟩
  · simp [concatenationSelector, h]
  · simp [concatenationSelector, h, PostgresDBType, SqliteDBType, MysqlDBType]
  · simp [concatenationSelector, h, PostgresDBType, SqliteDBType, MysqlDBType]
  · simp [concatenationSelector, h1, h2, h3]

/-- Witness for C8: the four branches at the spec's example input. -/
theorem concatenationSelector_spec_witness :
    concatenationSelector { dbType := "sqlite3" } "name" "," = "group_concat(" ++ "name" ++ ")"
    ∧ concatenationSelector { dbType := "postgres" } "name" ","
        = "string_agg(" ++ "name" ++ ", '" ++ "," ++ "')"
    ∧ concatenationSelector { dbType := "mysql" } "name" ","
        = "GROUP_CONCAT(" ++ "name" ++ " SEPARATOR '" ++ "," ++ "')"
    ∧ concatenationSelector { dbType := "oracle" } "name" "," = "" :=
  ⟨(concatenationSelector_spec { dbType := "sqlite3" } "name" ",").1 rfl,
   (concatenationSelector_spec { dbType := "postgres" } "name" ",").2.1 rfl,
   (concatenationSelector_spec { dbType := "mysql" } "name" ",").2.2.1 rfl,
   (concatenationSelector_spec { dbType := "oracle" } "name" ",").2.2.2
     (by decide) (by decide) (by decide)⟩

/-- Claim C2, counterexample: the claim asserts that `parameterPlaceholder`
and `escapeField` results are pairwise distinct across the three recognized
engines, but Postgres and SQLite receive identical results: `$1` and a
double-quoted name for both. -/
theorem placeholder_quote_postgres_sqlite_coincide :
    parameterPlaceholder { dbType := PostgresDBType } 1
      = parameterPlaceholder { dbType := SqliteDBType } 1
    ∧ escapeField { dbType := PostgresDBType } "name"
      = escapeField { dbType := SqliteDBType } "name" := by
  decide

/-- Claim C2, amended: for the three recognized engine kinds both operations
return non-empty results; MySQL's results differ from Postgres's and
SQLite's, while the Postgres and SQLite results coincide; for any
unrecognized engine kind `parameterPlaceholder` returns the empty string and
`escapeField` returns its input unchanged. -/
theorem placeholder_quote_engine_results (s1 s2 s3 : SQLStore) (count : Int) (name : String)
    (h1 : s1.dbType = PostgresDBType) (h2 : s2.dbType = MysqlDBType)
    (h3 : s3.dbType = SqliteDBType) :
    parameterPlaceholder s1 count ≠ ""
    ∧ parameterPlaceholder s2 count ≠ ""
    ∧ parameterPlaceholder s3 count ≠ ""
    ∧ escapeField s1 name ≠ ""
    ∧ escapeField s2 name ≠ ""
    ∧ escapeField s3 name ≠ ""
    ∧ parameterPlaceholder s2 count ≠ parameterPlaceholder s1 count
    ∧ escapeField s2 name ≠ escapeField s1 name
    ∧ parameterPlaceholder s1 count = parameterPlaceholder s3 count
    ∧ escapeField s1 name = escapeField s3 name
    ∧ (∀ s : SQLStore, s.dbType ≠ PostgresDBType → s.dbType ≠ SqliteDBType →
        s.dbType ≠ MysqlDBType → parameterPlaceholder s count = "" ∧ escapeField s name = name) := by
  have p1 := parameterPlaceholder_pgLite s1 count (Or.inl h1)
  have p2 := parameterPlaceholder_mysql s2 count h2
  have p3 := parameterPlaceholder_pgLite s3 count (Or.inr h3)
  have e1 := escapeField_pgLite s1 name (Or.inl h1)
  have e2 := escapeField_mysql s2 name h2
  have e3 := escapeField_pgLite s3 name (Or.inr h3)
  have hpd : ("$" ++ toString count).data = '$' :: (toString count).data :=
    one_char_append_data "$" (toString count) '$' rfl
  have hed : (("\"" ++ name) ++ "\"").data = '"' :: (name.data ++ "\"".data) :=
    one_char_append_append_data "\"" name "\"" '"' rfl
  have hmd : (("`" ++ name) ++ "`").data = '`' :: (name.data ++ "`".data) :=
    one_char_append_append_data "`" name "`" '`' rfl
  refine ⟨?_, ?_, ?_, ?_, ?_, ?_, ?_, ?_, ?_, ?_, ?_⟩
  · rw [p1]; exact data_cons_ne_empty hpd
  · rw [p2]; exact data_cons_ne_empty rfl
  · rw [p3]; exact data_cons_ne_empty hpd
  · rw [e1]; exact data_cons_ne_empty hed
  · rw [e2]; exact data_cons_ne_empty hmd
  · rw [e3]; exact data_cons_ne_empty hed
  · rw [p1, p2]; exact data_head_ne rfl hpd (by decide)
  · rw [e1, e2]; exact data_head_ne hmd hed (by decide)
  · rw [p1, p3]
  · rw [e1, e3]
  · intro s hs1 hs3 hs2
    exact ⟨parameterPlaceholder_other s count hs1 hs3 hs2,
      escapeField_other s name hs2 hs1 hs3⟩

/-- Witness for C2 (amended), at the three concrete engine tags. -/
theorem placeholder_quote_engine_results_witness :
    parameterPlaceholder { dbType := "postgres" } 1 ≠ ""
    ∧ parameterPlaceholder { dbType := "mysql" } 1 ≠ parameterPlaceholder { dbType := "postgres" } 1
    ∧ parameterPlaceholder { dbType := "postgres" } 1 = parameterPlaceholder { dbType := "sqlite3" } 1
    ∧ escapeField { dbType := "mysql" } "name" ≠ escapeField { dbType := "postgres" } "name" := by
  have h := placeholder_quote_engine_results
    { dbType := "postgres" } { dbType := "mysql" } { dbType := "sqlite3" } 1 "name" rfl rfl rfl
  exact ⟨h.1, h.2.2.2.2.2.2.1, h.2.2.2.2.2.2.2.2.1, h.2.2.2.2.2.2.2.1⟩

/-- Claim C1, counterexample: the claim asserts that every dialect operation,
`durationSelector` included, is a pure function of its explicit arguments and
the engine kind alone; but `durationSelector` also reads the clock, and two
calls with the identical interval argument and identical engine kind made at
different clock instants return different timestamps. -/
theorem durationSelector_clock_dependent :
    durationSelector { dbType := SqliteDBType } ⟨2024, 5, 10, 1, 2, 3, "Z"⟩ "2 days"
      ≠ durationSelector { dbType := SqliteDBType } ⟨2024, 5, 11, 1, 2, 3, "Z"⟩ "2 days" := by
  decide

/-- Claim C1, amended: each of the six dialect operations is a deterministic
pure function of its explicit arguments, the engine kind (plus, for
`computeBinaryParam`, the connection string and URL parser), and — for
`durationSelector` only — the clock value at the call: two stores agreeing on
those inputs produce identical outputs for all six operations, whatever their
other fields. -/
theorem dialect_operations_deterministic
    (p : String → Except String GoURL) (s1 s2 : SQLStore)
    (hdb : s1.dbType = s2.dbType) (hconn : s1.connectionString = s2.connectionString)
    (name : String) (count : Int) (field delimiter column : String)
    (now : GoTime) (interval : String) :
    escapeField s1 name = escapeField s2 name
    ∧ parameterPlaceholder s1 count = parameterPlaceholder s2 count
    ∧ concatenationSelector s1 field delimiter = concatenationSelector s2 field delimiter
    ∧ elementInColumn s1 count column = elementInColumn s2 count column
    ∧ durationSelector s1 now interval = durationSelector s2 now interval
    ∧ computeBinaryParam p s1 = computeBinaryParam p s2 := by
  refine ⟨?_, ?_, ?_, ?_, rfl, ?_⟩
  · simp only [escapeField, hdb]
  · simp only [parameterPlaceholder, hdb]
  · simp only [concatenationSelector, hdb]
  · simp only [elementInColumn, parameterPlaceholder, hdb]
  · simp only [computeBinaryParam, hdb, hconn]

/-- Witness for C1 (amended): two stores sharing engine kind and connection
string but differing in their plugin flag agree on every operation at
concrete arguments. -/
theorem dialect_operations_deterministic_witness :
    escapeField { dbType := "sqlite3" } "name"
      = escapeField { dbType := "sqlite3", isPlugin := true } "name"
    ∧ durationSelector { dbType := "sqlite3" } ⟨2024, 5, 10, 1, 2, 3, "Z"⟩ "2 days"
      = durationSelector { dbType := "sqlite3", isPlugin := true } ⟨2024, 5, 10, 1, 2, 3, "Z"⟩ "2 days" := by
  have h := dialect_operations_deterministic (fun _ => Except.ok ⟨[]⟩)
    { dbType := "sqlite3" } { dbType := "sqlite3", isPlugin := true } rfl rfl
    "name" 1 "f" "," "col" ⟨2024, 5, 10, 1, 2, 3, "Z"⟩ "2 days"
  exact ⟨h.1, h.2.2.2.2.1⟩

/-- Claim C3: when the first whitespace-separated token of the interval is not
a valid integer, `durationSelector` terminates the process via `os.Exit(2)` —
it neither continues to the unit branches nor returns any timestamp. -/
theorem durationSelector_invalid_magnitude_exits
    (s : SQLStore) (now : GoTime) (interval tok : String) (rest : List String)
    (hf : goFields interval = tok :: rest) (ha : goAtoi tok = none) :
    durationSelector s now interval = DurationResult.exit 2 := by
  simp [durationSelector, hf, ha]

/-- Witness for C3 at the spec's example input `"abc days"`. -/
theorem durationSelector_invalid_magnitude_exits_witness :
    durationSelector { dbType := "postgres" } ⟨2024, 5, 10, 1, 2, 3, "Z"⟩ "abc days"
      = DurationResult.exit 2 :=
  durationSelector_invalid_magnitude_exits { dbType := "postgres" } ⟨2024, 5, 10, 1, 2, 3, "Z"⟩
    "abc days" "abc" ["days"] (by decide) (by decide)

/-- Claim C4: on an interval with no non-whitespace token,
`strings.Fields(interval)` is empty and indexing `[0]` panics with an
index-out-of-range; neither the `os.Exit(2)` path nor any timestamp fallback
is reached. -/
theorem durationSelector_empty_interval_panics
    (s : SQLStore) (now : GoTime) (interval : String)
    (hf : goFields interval = []) :
    durationSelector s now interval = DurationResult.panicIndexOutOfRange := by
  simp [durationSelector, hf]

/-- Witness for C4 at the empty interval and an all-whitespace interval. -/
theorem durationSelector_empty_interval_panics_witness :
    durationSelector { dbType := "postgres" } ⟨2024, 5, 10, 1, 2, 3, "Z"⟩ ""
      = DurationResult.panicIndexOutOfRange
    ∧ durationSelector { dbType := "postgres" } ⟨2024, 5, 10, 1, 2, 3, "Z"⟩ " \t "
      = DurationResult.panicIndexOutOfRange :=
  ⟨durationSelector_empty_interval_panics { dbType := "postgres" }
      ⟨2024, 5, 10, 1, 2, 3, "Z"⟩ "" (by decide),
   durationSelector_empty_interval_panics { dbType := "postgres" }
      ⟨2024, 5, 10, 1, 2, 3, "Z"⟩ " \t " (by decide)⟩

/-- Claim C6: when the leading token parses as the integer `n` and the
interval contains `day` (respectively `month`, `year`, in the precedence
order of the code), `durationSelector` returns the RFC 3339 rendering of the
call time shifted by `AddDate` with `-n` days (respectively months, years). -/
theorem durationSelector_unit_arithmetic
    (s : SQLStore) (now : GoTime) (interval tok : String) (rest : List String) (n : Int)
    (hf : goFields interval = tok :: rest) (ha : goAtoi tok = some n) :
    (strContains interval "day" = true →
      durationSelector s now interval
        = DurationResult.timestamp (formatRFC3339 (GoTime.addDate now 0 0 (-1 * n))))
    ∧ (strContains interval "day" = false → strContains interval "month" = true →
      durationSelector s now interval
        = DurationResult.timestamp (formatRFC3339 (GoTime.addDate now 0 (-1 * n) 0)))
    ∧ (strContains interval "day" = false → strContains interval "month" = false →
        strContains interval "year" = true →
      durationSelector s now interval
        = DurationResult.timestamp (formatRFC3339 (GoTime.addDate now (-1 * n) 0 0))) := by
  refine ⟨?_, ?_, ?_⟩ <;> intros <;> simp [durationSelector, hf, ha, *]

/-- Witness for C6: `"2 days"` yields exactly two days before the call time,
here rendered as the concrete RFC 3339 string. -/
theorem durationSelector_unit_arithmetic_witness :
    durationSelector { dbType := "postgres" } ⟨2024, 5, 10, 1, 2, 3, "Z"⟩ "2 days"
      = DurationResult.timestamp
          (formatRFC3339 (GoTime.addDate ⟨2024, 5, 10, 1, 2, 3, "Z"⟩ 0 0 (-1 * 2)))
    ∧ formatRFC3339 (GoTime.addDate ⟨2024, 5, 10, 1, 2, 3, "Z"⟩ 0 0 (-1 * 2))
        = "2024-05-08T01:02:03Z" :=
  ⟨(durationSelector_unit_arithmetic { dbType := "postgres" } ⟨2024, 5, 10, 1, 2, 3, "Z"⟩
      "2 days" "2" ["days"] 2 (by decide) (by decide)).1 (by decide),
   by decide⟩

/-- Claim C7: when the leading token parses as an integer but the interval
contains none of `day`, `month`, `year`, `durationSelector` returns the
current timestamp unmodified. -/
theorem durationSelector_unknown_unit_now
    (s : SQLStore) (now : GoTime) (interval tok : String) (rest : List String) (n : Int)
    (hf : goFields interval = tok :: rest) (ha : goAtoi tok = some n)
    (hd : strContains interval "day" = false) (hm : strContains interval "month" = false)
    (hy : strContains interval "year" = false) :
    durationSelector s now interval = DurationResult.timestamp (formatRFC3339 now) := by
  simp [durationSelector, hf, ha, hd, hm, hy]

/-- Witness for C7 at the spec's example input `"5 fortnights"`. -/
theorem durationSelector_unknown_unit_now_witness :
    durationSelector { dbType := "postgres" } ⟨2024, 5, 10, 1, 2, 3, "Z"⟩ "5 fortnights"
      = DurationResult.timestamp (formatRFC3339 ⟨2024, 5, 10, 1, 2, 3, "Z"⟩) :=
  durationSelector_unknown_unit_now { dbType := "postgres" } ⟨2024, 5, 10, 1, 2, 3, "Z"⟩
    "5 fortnights" "5" ["fortnights"] 5 (by decide) (by decide)
    (by decide) (by decide) (by decide)

/-- Claim C5: `computeBinaryParam` returns `false` (with no error) for every
non-Postgres engine, for every URL parser, without consulting the parser; for
Postgres it parses the connection string, propagating the parser's error
unchanged when parsing fails, and otherwise returns whether the
`binary_parameters` query value is exactly `"yes"`. -/
theorem computeBinaryParam_spec
    (p : String → Except String GoURL) (s : SQLStore) :
    (s.dbType ≠ PostgresDBType → computeBinaryParam p s = Except.ok false)
    ∧ (s.dbType = PostgresDBType → ∀ u : GoURL, p s.connectionString = Except.ok u →
        computeBinaryParam p s = Except.ok (u.queryGet "binary_parameters" == "yes"))
    ∧ (s.dbType = PostgresDBType → ∀ e : String, p s.connectionString = Except.error e →
        computeBinaryParam p s = Except.error e) := by
  refine ⟨fun h => ?_, fun h u hu => ?_, fun h e he => ?_⟩
  · simp [computeBinaryParam, h]
  · simp [computeBinaryParam, h, hu]
  · simp [computeBinaryParam, h, he]

/-- Witness for C5: a parser yielding `binary_parameters=yes` gives `true`
on Postgres; a `"no"` value gives `false`; a failing parser's error is
propagated on Postgres; and a non-Postgres store returns `false` even with a
parser that would yield `yes`. -/
theorem computeBinaryParam_spec_witness :
    computeBinaryParam (fun _ => Except.ok ⟨[("binary_parameters", "yes")]⟩)
        { dbType := "postgres", connectionString := "postgres://u@h/db?binary_parameters=yes" }
      = Except.ok true
    ∧ computeBinaryParam (fun _ => Except.ok ⟨[("binary_parameters", "no")]⟩)
        { dbType := "postgres" } = Except.ok false
    ∧ computeBinaryParam (fun _ => Except.error "parse \"://h\": missing protocol scheme")
        { dbType := "postgres" } = Except.error "parse \"://h\": missing protocol scheme"
    ∧ computeBinaryParam (fun _ => Except.ok ⟨[("binary_parameters", "yes")]⟩)
        { dbType := "mysql" } = Except.ok false := by
  refine ⟨?_, ?_, ?_, ?_⟩
  · exact ((computeBinaryParam_spec (fun _ => Except.ok ⟨[("binary_parameters", "yes")]⟩)
      { dbType := "postgres", connectionString := "postgres://u@h/db?binary_parameters=yes" }).2.1
      rfl ⟨[("binary_parameters", "yes")]⟩ rfl).trans (congrArg Except.ok (by decide))
  · exact ((computeBinaryParam_spec (fun _ => Except.ok ⟨[("binary_parameters", "no")]⟩)
      { dbType := "postgres" }).2.1 rfl ⟨[("binary_parameters", "no")]⟩ rfl).trans
      (congrArg Except.ok (by decide))
  · exact (computeBinaryParam_spec (fun _ => Except.error "parse \"://h\": missing protocol scheme")
      { dbType := "postgres" }).2.2 rfl "parse \"://h\": missing protocol scheme" rfl
  · exact (computeBinaryParam_spec (fun _ => Except.ok ⟨[("binary_parameters", "yes")]⟩)
      { dbType := "mysql" }).1 (by decide)

end SqlStore
